import Mathlib

/-!
Verification development for the `iksolver` repository: a CCD (Cyclic
Coordinate Descent) inverse-kinematics solver over a kinematic chain built
from a URDF robot description.

The embedding is a shallow one over ℚ.  The JavaScript `Math` primitives
(`sqrt`, `asin`, `sin`, `cos`) are transcendental, so they are abstracted as
a parameter record `JsMath`; every definition that calls one of them takes
the record explicitly.  Concrete instantiations used in witnesses pick
rational stand-ins that agree with the real functions at the finitely many
points actually evaluated (each such agreement is noted where it matters).
-/

namespace IK

/-- Abstraction of the JavaScript `Math` primitives used by the solver. -/
structure JsMath where
  sqrt : ℚ → ℚ
  asin : ℚ → ℚ
  sin : ℚ → ℚ
  cos : ℚ → ℚ

/-- The constant `Number.EPSILON` (2⁻⁵²), used by three.js `Quaternion.setFromUnitVectors`. -/
def jsNumberEPSILON : ℚ := 1 / 2 ^ 52

/-- three.js `Vector3`: a 3-component vector. -/
structure Vec3 where
  x : ℚ
  y : ℚ
  z : ℚ
deriving DecidableEq

/-- three.js `Quaternion` (components x, y, z, w). -/
structure Quat where
  x : ℚ
  y : ℚ
  z : ℚ
  w : ℚ
deriving DecidableEq

def Vec3.add (a b : Vec3) : Vec3 := ⟨a.x + b.x, a.y + b.y, a.z + b.z⟩

def Vec3.sub (a b : Vec3) : Vec3 := ⟨a.x - b.x, a.y - b.y, a.z - b.z⟩

def Vec3.dot (a b : Vec3) : ℚ := a.x * b.x + a.y * b.y + a.z * b.z

def Vec3.lengthSq (a : Vec3) : ℚ := a.dot a

/-- three.js `Vector3.length`: `Math.sqrt(x² + y² + z²)`. -/
def Vec3.length (m : JsMath) (a : Vec3) : ℚ := m.sqrt a.lengthSq

def Vec3.divScalar (a : Vec3) (s : ℚ) : Vec3 := ⟨a.x / s, a.y / s, a.z / s⟩

/-- three.js `Vector3.normalize`: `divideScalar(length() || 1)` (the `|| 1`
turns a zero length into a division by 1). -/
def Vec3.normalize (m : JsMath) (a : Vec3) : Vec3 :=
  a.divScalar (if Vec3.length m a = 0 then 1 else Vec3.length m a)

/-- three.js `Vector3.applyQuaternion`: `t = 2·(q.xyz × v); v + q.w·t + q.xyz × t`. -/
def Vec3.applyQuaternion (v : Vec3) (q : Quat) : Vec3 :=
  let tx := 2 * (q.y * v.z - q.z * v.y)
  let ty := 2 * (q.z * v.x - q.x * v.z)
  let tz := 2 * (q.x * v.y - q.y * v.x)
  ⟨v.x + q.w * tx + q.y * tz - q.z * ty,
   v.y + q.w * ty + q.z * tx - q.x * tz,
   v.z + q.w * tz + q.x * ty - q.y * tx⟩

/-- three.js `Quaternion.multiply`: Hamilton product `this * q`. -/
def Quat.multiply (a b : Quat) : Quat :=
  ⟨a.x * b.w + a.w * b.x + a.y * b.z - a.z * b.y,
   a.y * b.w + a.w * b.y + a.z * b.x - a.x * b.z,
   a.z * b.w + a.w * b.z + a.x * b.y - a.y * b.x,
   a.w * b.w - a.x * b.x - a.y * b.y - a.z * b.z⟩

/-- three.js `Quaternion.invert`: the conjugate (the quaternion is assumed
to have unit length). -/
def Quat.invert (q : Quat) : Quat := ⟨-q.x, -q.y, -q.z, q.w⟩

def Quat.lengthSq (q : Quat) : ℚ := q.x ^ 2 + q.y ^ 2 + q.z ^ 2 + q.w ^ 2

def Quat.length (m : JsMath) (q : Quat) : ℚ := m.sqrt q.lengthSq

/-- three.js `Quaternion.normalize`: zero length yields the identity
quaternion, otherwise every component is divided by the length. -/
def Quat.normalize (m : JsMath) (q : Quat) : Quat :=
  if Quat.length m q = 0 then ⟨0, 0, 0, 1⟩
  else ⟨q.x / Quat.length m q, q.y / Quat.length m q,
        q.z / Quat.length m q, q.w / Quat.length m q⟩

/-- three.js `Quaternion.setFromUnitVectors` (shortest-arc rotation mapping
`vFrom` onto `vTo`), including the antiparallel fallback branch. -/
def Quat.setFromUnitVectors (m : JsMath) (vFrom vTo : Vec3) : Quat :=
  let r := vFrom.dot vTo + 1
  let q : Quat :=
    if r < jsNumberEPSILON then
      if |vFrom.x| > |vFrom.z| then ⟨-vFrom.y, vFrom.x, 0, 0⟩
      else ⟨0, -vFrom.z, vFrom.y, 0⟩
    else
      ⟨vFrom.y * vTo.z - vFrom.z * vTo.y,
       vFrom.z * vTo.x - vFrom.x * vTo.z,
       vFrom.x * vTo.y - vFrom.y * vTo.x, r⟩
  Quat.normalize m q

/-- three.js `Quaternion.setFromAxisAngle`. -/
def Quat.setFromAxisAngle (m : JsMath) (axis : Vec3) (angle : ℚ) : Quat :=
  let halfAngle := angle / 2
  let s := m.sin halfAngle
  ⟨axis.x * s, axis.y * s, axis.z * s, m.cos halfAngle⟩

/-! Data model (src/model.ts and src/IKChain.ts). -/

/-- Type `AxisName` from src/model.ts: the name of a vector component. -/
inductive AxisName where
  | x
  | y
  | z
deriving DecidableEq

/-- Type `JointLimit` from src/model.ts. -/
structure JointLimit where
  lower : ℚ
  upper : ℚ
deriving DecidableEq

/-- Type `IKConfig` from src/model.ts. -/
structure IKConfig where
  tolerance : ℚ
  maxIterations : ℕ
  updateURDFRobot : Bool
deriving DecidableEq

/-- The urdf-loader joint types the code compares against
(`jointType === 'revolute'`, `jointType === 'fixed'`). -/
inductive URDFJointType where
  | revolute
  | fixed
  | other
deriving DecidableEq

/-- The fields of a urdf-loader `URDFJoint` that `IKJoint` reads: local
position, local orientation (the joint's `rotation`, kept here as its
quaternion), the optional rotation axis, the optional angular limit, and
the joint type. -/
structure URDFJointData where
  position : Vec3
  quaternion : Quat
  axis : Option Vec3
  limit : Option JointLimit
  jointType : URDFJointType
deriving DecidableEq

/-- Type `IKJoint` from src/IKChain.ts: an `Object3D` (local `position` and
`quaternion`) wrapping an optional URDF joint. -/
structure IKJoint where
  urdfJoint : Option URDFJointData
  position : Vec3
  quaternion : Quat
deriving DecidableEq

/-- The `IKJoint` constructor: an `Object3D` starts at the origin with the
identity orientation; if a URDF joint is given, its position and rotation
are copied. -/
def mkIKJoint (u : Option URDFJointData) : IKJoint :=
  match u with
  | some d => { urdfJoint := some d, position := d.position, quaternion := d.quaternion }
  | none => { urdfJoint := none, position := ⟨0, 0, 0⟩, quaternion := ⟨0, 0, 0, 1⟩ }

/-- Getter `IKJoint.isRootJoint`: `!this._urdfJoint`. -/
def IKJoint.isRootJoint (j : IKJoint) : Bool := j.urdfJoint.isNone

/-- Constant `DEFAULT_AXIS` from src/IKChain.ts. -/
def DEFAULT_AXIS : Vec3 := ⟨0, 1, 0⟩

/-- Getter `IKJoint.axis`: `this._urdfJoint?.axis || DEFAULT_AXIS` (a URDF axis
object is always truthy, so the default is used exactly when the URDF joint
or its axis is absent). -/
def IKJoint.axis (j : IKJoint) : Vec3 := (j.urdfJoint.bind URDFJointData.axis).getD DEFAULT_AXIS

/-- Getter `IKJoint.limit`: `this._urdfJoint?.limit || {lower: 0, upper: 0}` — an
absent limit is replaced by the default `{lower: 0, upper: 0}` object. -/
def IKJoint.limit (j : IKJoint) : JointLimit := (j.urdfJoint.bind URDFJointData.limit).getD ⟨0, 0⟩

/-- Getter `IKJoint.isHinge`: `this._urdfJoint?.jointType === 'revolute'`. -/
def IKJoint.isHinge (j : IKJoint) : Bool :=
  match j.urdfJoint with
  | some d => d.jointType = URDFJointType.revolute
  | none => false

/-- Getter `IKJoint.isFixed`: `this._urdfJoint?.jointType === 'fixed'`. -/
def IKJoint.isFixed (j : IKJoint) : Bool :=
  match j.urdfJoint with
  | some d => d.jointType = URDFJointType.fixed
  | none => false

/-- Getter `IKJoint.axisName`: `Object.entries(this.axis).find(([key, value]) => value)?.[0]`
— the first of the components x, y, z (in insertion order) whose value is
truthy (nonzero); `none` models the `''` returned when all components are 0. -/
def axisNameOf (v : Vec3) : Option AxisName :=
  if v.x ≠ 0 then some AxisName.x
  else if v.y ≠ 0 then some AxisName.y
  else if v.z ≠ 0 then some AxisName.z
  else none

/-- Component lookup `v[axisName]` on a vector. -/
def vecComp (v : Vec3) : AxisName → ℚ
  | AxisName.x => v.x
  | AxisName.y => v.y
  | AxisName.z => v.z

/-- Component lookup `q[axisName]` on a quaternion. -/
def quatComp (q : Quat) : AxisName → ℚ
  | AxisName.x => q.x
  | AxisName.y => q.y
  | AxisName.z => q.z

/-! Chain construction from a URDF description (`IKChain.createFromURDF`,
`_traverseURDFJoints`, `_baseURDFJoint`, `_nextURDFJoint` in src/IKChain.ts).
A scene node either carries URDF joint data (`isURDFJoint` true) or not
(a link or visual node). -/

/-- A node of the three.js scene tree produced by urdf-loader: an optional
URDF joint payload plus the list of children. -/
inductive URDFNode where
  | mk (joint : Option URDFJointData) (children : List URDFNode)

/-- The `isURDFJoint` flag of a scene node. -/
def URDFNode.isURDFJoint : URDFNode → Bool
  | URDFNode.mk j _ => j.isSome

/-- The children of a scene node. -/
def URDFNode.children : URDFNode → List URDFNode
  | URDFNode.mk _ c => c

/-- The joint payload of a scene node. -/
def URDFNode.joint : URDFNode → Option URDFJointData
  | URDFNode.mk j _ => j

mutual

/-- Total number of nodes of a scene tree (used as the recursion bound for
the chain traversal below). -/
def URDFNode.sizeT : URDFNode → ℕ
  | URDFNode.mk _ cs => 1 + sizeNodes cs

/-- Total number of nodes of a forest of scene trees. -/
def sizeNodes : List URDFNode → ℕ
  | [] => 0
  | n :: rest => URDFNode.sizeT n + sizeNodes rest

end

/-- The error taxonomy of spec §7 for chain building.  `typeError` is the
JavaScript `TypeError` thrown by an undefined property access (for example
`parent.children[0].children` when `parent` has no children). -/
inductive BuildError where
  | typeError
  | malformedChain
deriving DecidableEq

/-- Method `IKChain._nextURDFJoint`:
`parent.children[0].children.find((child) => child.isURDFJoint)`.
Reading `children[0]` of a childless node is `undefined`, and the
subsequent `.children` access throws a `TypeError`. -/
def nextURDFJoint (parent : URDFNode) : Except BuildError (Option URDFNode) :=
  match parent.children with
  | [] => Except.error BuildError.typeError
  | c :: _ => Except.ok (c.children.find? URDFNode.isURDFJoint)

/-- Method `IKChain._baseURDFJoint`:
`parent.children.find((child) => child.isURDFJoint && this._nextURDFJoint(child))`
— the first child that is a URDF joint and has a further chained joint
(short-circuit `&&`; an exception inside the predicate propagates). -/
def baseURDFJoint : List URDFNode → Except BuildError (Option URDFNode)
  | [] => Except.ok none
  | c :: rest =>
    if c.isURDFJoint then
      match nextURDFJoint c with
      | Except.error e => Except.error e
      | Except.ok (some _) => Except.ok (some c)
      | Except.ok none => baseURDFJoint rest
    else baseURDFJoint rest

/-- Method `IKChain._traverseURDFJoints`: builds an `IKJoint` for the current URDF
joint, then recurses into the next chained joint; the node with no further
chained joint becomes the end effector.  Returns the built joints in
root-to-effector order together with the end effector.  The `fuel`
parameter bounds the recursion depth (the JavaScript recursion always
terminates on the finite scene tree; `createFromURDF` below passes a bound
that is at least the tree size, so the fuel-exhaustion branch is never
taken there). -/
def traverseURDFJoints : ℕ → URDFNode → Except BuildError (List IKJoint × IKJoint)
  | 0, _ => Except.error BuildError.typeError
  | fuel + 1, u =>
    let ikJoint := mkIKJoint u.joint
    match nextURDFJoint u with
    | Except.error e => Except.error e
    | Except.ok none => Except.ok ([ikJoint], ikJoint)
    | Except.ok (some nxt) =>
      match traverseURDFJoints fuel nxt with
      | Except.error e => Except.error e
      | Except.ok (rest, eff) => Except.ok (ikJoint :: rest, eff)

/-- Method `IKChain.createFromURDF`: starts from the root `IKJoint` (built with no
URDF joint) and traverses from the base URDF joint of the robot.  When no
base joint is found, the traversal is started on `undefined` and the
`parent.children` access inside `_nextURDFJoint` throws a `TypeError`.
Returns the chain's `ikJoints` list (root first, as collected by
`Object3D.traverse`) together with the end effector. -/
def createFromURDF (robot : URDFNode) : Except BuildError (List IKJoint × IKJoint) :=
  match baseURDFJoint robot.children with
  | Except.error e => Except.error e
  | Except.ok none => Except.error BuildError.typeError
  | Except.ok (some base) =>
    match traverseURDFJoints base.sizeT base with
    | Except.error e => Except.error e
    | Except.ok (js, eff) => Except.ok (mkIKJoint none :: js, eff)

/-! The CCD solver (src/ccdIKSolver.ts).

World transforms: an `IKJoint` at index `i` of the chain is the scene child
of the joint at index `i - 1`, so its world matrix is the composition of
the local transforms of joints `0..i` (each local matrix is translation by
`position` following rotation by `quaternion`; scale is 1).  The source
reads cached `matrixWorld` values, but they are never stale at a read:
`endEffector.getWorldPosition` (called at the top of every joint step)
refreshes the whole ancestor chain, and `ikJoint.updateMatrixWorld()` at
the bottom of every joint step refreshes the modified joint and all of its
descendants before the next (root-ward) joint or the distance check reads
them.  The embedding therefore computes world transforms on demand from
the current local transforms; `updateMatrixWorld` has no further effect. -/

/-- The argument handed to `Math.asin` inside `getIKJointRotationAngle`:
`ikJoint.quaternion[axisName] / axis[axisName]`. -/
def asinArgument (j : IKJoint) (a : AxisName) : ℚ :=
  quatComp j.quaternion a / vecComp j.axis a

/-- Function `getIKJointRotationAngle`:
`Math.asin(ikJoint.quaternion[axisName] / axis[axisName]) * 2`.
`none` models the `NaN` produced when `axisName` is `''` (all axis
components zero), in which case the indexing yields `undefined`. -/
def getIKJointRotationAngle (m : JsMath) (j : IKJoint) : Option ℚ :=
  (axisNameOf j.axis).map fun a => m.asin (asinArgument j a) * 2

/-- The angle derivation as the spec words it (spec §4.2/§7): the ratio is
clamped into [−1, 1] before the inverse sine.  Stated for comparison with
`getIKJointRotationAngle`, which is what the source computes. -/
def getIKJointRotationAngleSpecClamped (m : JsMath) (j : IKJoint) : Option ℚ :=
  (axisNameOf j.axis).map fun a => m.asin (max (-1) (min 1 (asinArgument j a))) * 2

/-- Function `clampIKJointRotationAngle`: clamps the angle into the limit interval
and reports whether clamping occurred. -/
def clampIKJointRotationAngle (ikJointRotationAngle : ℚ) (limit : JointLimit) :
    ℚ × Bool :=
  if ikJointRotationAngle < limit.lower then (limit.lower, true)
  else if ikJointRotationAngle > limit.upper then (limit.upper, true)
  else (ikJointRotationAngle, false)

/-- Truthiness of the `ikJoint.limit` value in `if (ikJoint.limit)`: the
`limit` getter always returns an object, and a JavaScript object is always
truthy. -/
def jsObjectTruthy (_limit : JointLimit) : Bool := true

/-- The limit block of `CCDIKSolver`:
`if (ikJoint.limit) { ... if (isClamped) ikJoint.quaternion.setFromAxisAngle(...) }`.
When the derived angle is `NaN` (`none` here) both comparisons inside
`clampIKJointRotationAngle` are false, so no clamping occurs. -/
def applyLimitStep (m : JsMath) (j : IKJoint) : IKJoint :=
  if jsObjectTruthy j.limit then
    match getIKJointRotationAngle m j with
    | none => j
    | some ikJointRotationAngle =>
      let r := clampIKJointRotationAngle ikJointRotationAngle j.limit
      if r.2 then { j with quaternion := Quat.setFromAxisAngle m j.axis r.1 } else j
  else j

/-- The state the solver mutates: the chain's `ikJoints` (root first) and
the caller-owned target position.  Every access the source makes to
`targetPos` goes through `targetPos.clone()`, so the solver steps below
carry the target through unchanged. -/
structure SolverState where
  ikJoints : List IKJoint
  targetPos : Vec3
deriving DecidableEq

/-- Applies the composed local transforms of the given joints (first joint
outermost): the world transform of the last joint in the list, applied to
a point in its local frame. -/
def worldApply : List IKJoint → Vec3 → Vec3
  | [], v => v
  | j :: rest, v => j.position.add ((worldApply rest v).applyQuaternion j.quaternion)

/-- Applies the inverse of the composed local transforms of the given
joints: `worldToLocal` into the frame of the last joint in the list. -/
def worldInvApply : List IKJoint → Vec3 → Vec3
  | [], v => v
  | j :: rest, v => worldInvApply rest ((v.sub j.position).applyQuaternion j.quaternion.invert)

/-- The closure `calcEndEffectorTargetDistance`:
`endEffector.worldToLocal(targetPos.clone()).length()` — the end effector
is the last joint, so its frame is reached through the whole chain. -/
def calcEndEffectorTargetDistance (m : JsMath) (s : SolverState) : ℚ :=
  Vec3.length m (worldInvApply s.ikJoints s.targetPos)

/-- The body of the solver's inner `for` loop for the joint at index `i`:
skip fixed joints; rotate the joint by the shortest arc mapping the local
direction to the end effector onto the local direction to the target;
for revolute or root joints apply the axis correction; then the limit
block.  (`ikJoint.updateMatrixWorld()` refreshes caches only, see above.) -/
def processIKJoint (m : JsMath) (s : SolverState) (i : ℕ) : SolverState :=
  match s.ikJoints[i]? with
  | none => s
  | some ikJoint =>
    if ikJoint.isFixed then s
    else
      let endEffectorWorldPos := worldApply s.ikJoints ⟨0, 0, 0⟩
      let pre := s.ikJoints.take (i + 1)
      let directionToEndEffector := Vec3.normalize m (worldInvApply pre endEffectorWorldPos)
      let directionToTarget := Vec3.normalize m (worldInvApply pre s.targetPos)
      let jointToTargetQt := Quat.setFromUnitVectors m directionToEndEffector directionToTarget
      let j1 : IKJoint := { ikJoint with quaternion := ikJoint.quaternion.multiply jointToTargetQt }
      let j2 : IKJoint :=
        if j1.isHinge || j1.isRootJoint then
          let inverseQt := j1.quaternion.invert
          let jointAxisInverseQt := j1.axis.applyQuaternion inverseQt
          let axisToTargetQt := Quat.setFromUnitVectors m j1.axis jointAxisInverseQt
          { j1 with quaternion := j1.quaternion.multiply axisToTargetQt }
        else j1
      let j3 := applyLimitStep m j2
      { s with ikJoints := s.ikJoints.set i j3 }

/-- The inner `for` loop from index `i` down to 0:
`for (let i = ikJoints.length - 2; i >= 0; i--)`. -/
def sweepDown (m : JsMath) : ℕ → SolverState → SolverState
  | 0, s => processIKJoint m s 0
  | i + 1, s => sweepDown m i (processIKJoint m s (i + 1))

/-- One full sweep of the chain: the inner loop runs over indices
`length - 2, ..., 0` and not at all when the chain has fewer than two
joints. -/
def ccdSweep (m : JsMath) (s : SolverState) : SolverState :=
  match s.ikJoints.length with
  | 0 => s
  | 1 => s
  | n + 2 => sweepDown m n s

/-- Iterates `k` consecutive sweeps. -/
def sweepN (m : JsMath) : ℕ → SolverState → SolverState
  | 0, s => s
  | k + 1, s => sweepN m k (ccdSweep m s)

/-- The solver's `while` loop:
`while (endEffectorTargetDistance > config.tolerance && iteration <= config.maxIterations)`;
each pass sweeps the chain, recomputes the distance and increments
`iteration`.  The distance is a pure function of the state, so the
recomputation is implicit here.  The fuel argument only bounds the
recursion; `CCDIKSolver` passes `maxIterations + 2`, which the iteration
guard never exhausts. -/
def ccdLoop (m : JsMath) (config : IKConfig) :
    ℕ → ℕ → SolverState → SolverState × ℕ
  | 0, iteration, s => (s, iteration)
  | fuel + 1, iteration, s =>
    if calcEndEffectorTargetDistance m s > config.tolerance ∧
        iteration ≤ config.maxIterations then
      ccdLoop m config fuel (iteration + 1) (ccdSweep m s)
    else (s, iteration)

/-- Function `CCDIKSolver(ikChain, targetPos, config)`: returns the final state
(joints and the untouched target) together with the final value of the
`iteration` counter, which counts the sweeps performed. -/
def CCDIKSolver (m : JsMath) (ikJoints : List IKJoint) (targetPos : Vec3)
    (config : IKConfig) : SolverState × ℕ :=
  ccdLoop m config (config.maxIterations + 2) 0 ⟨ikJoints, targetPos⟩

/-! The orchestrator `IKSolver` (src/IKSolver.ts). -/

/-- The orchestrator constructor's argument, the TypeScript
`Partial<IKConfig>`: each field may be absent. -/
structure IKConfigInput where
  tolerance : Option ℚ
  maxIterations : Option ℕ
  updateURDFRobot : Option Bool
deriving DecidableEq

/-- The `IKSolver` constructor's config merge:
`{ tolerance: 0.01, maxIterations: 10, updateURDFRobot: false, ...config }`
— a field present in `config` overrides the default written before the
spread. -/
def IKSolver.mkConfig (config : IKConfigInput) : IKConfig :=
  { tolerance := config.tolerance.getD (1 / 100),
    maxIterations := config.maxIterations.getD 10,
    updateURDFRobot := config.updateURDFRobot.getD false }

/-- Method `IKSolver._updateURDFRobot`: for each chain joint, copy its quaternion
into the quaternion of its URDF joint (no-op for the root, which has
none). -/
def IKSolver.updateURDFRobotJoints (js : List IKJoint) : List IKJoint :=
  js.map fun j =>
    match j.urdfJoint with
    | some u => { j with urdfJoint := some { u with quaternion := j.quaternion } }
    | none => j

/-- Method `IKSolver.solve`: `if (!this.ikChain || !this.target) return;` then the
CCD solver on the target's position, then the optional write-back.
Returns the orchestrator's observable state: the chain joints (with their
URDF joints, whose quaternions the write-back mutates) and the target. -/
def IKSolver.solve (m : JsMath) (config : IKConfig) (ikChain : Option (List IKJoint))
    (target : Option Vec3) : Option (List IKJoint) × Option Vec3 :=
  match ikChain, target with
  | some c, some t =>
    let r := CCDIKSolver m c t config
    let js :=
      if config.updateURDFRobot then IKSolver.updateURDFRobotJoints r.1.ikJoints
      else r.1.ikJoints
    (some js, some r.1.targetPos)
  | _, _ => (ikChain, target)

/-! Concrete instances used by witnesses and counterexamples.  The `JsMath`
records below are rational stand-ins; where a theorem's conclusion depends
on a primitive's value at a point, the stand-in agrees with the real
function at that point (noted at the theorem). -/

/-- Stand-in primitives with `sqrt` constantly 1: every computed distance
and every normalisation divisor evaluates to 1. -/
def mStub : JsMath := ⟨fun _ => 1, fun _ => 0, fun _ => 0, fun _ => 1⟩

/-- Stand-in primitives with `sqrt` constantly 0: every computed distance
evaluates to 0. -/
def mZeroSqrt : JsMath := ⟨fun _ => 0, fun _ => 0, fun _ => 0, fun _ => 1⟩

/-- Stand-in primitives with `asin` and `sin` the identity and `cos`
constantly 1: they agree with the real functions at 0 (`sin 0 = 0`,
`cos 0 = 1`, `asin 0 = 0`) and `asin` has the sign of the real `asin` on
(−1, 1). -/
def mIdTrig : JsMath := ⟨fun _ => 1, fun q => q, fun q => q, fun _ => 1⟩

/-- The root joint as `IKChain`'s constructor builds it. -/
def rootJoint : IKJoint := mkIKJoint none

/-- A fixed URDF end-effector joint one unit along x. -/
def effData : URDFJointData :=
  ⟨⟨1, 0, 0⟩, ⟨0, 0, 0, 1⟩, none, none, URDFJointType.fixed⟩

/-- The end-effector `IKJoint` built from `effData`. -/
def effJoint : IKJoint := mkIKJoint (some effData)

/-- A two-joint chain: root plus end effector. -/
def chain2 : List IKJoint := [rootJoint, effJoint]

/-- A fixed URDF joint with a distinctive orientation, placed mid-chain. -/
def fixedMidData : URDFJointData :=
  ⟨⟨0, 1, 0⟩, ⟨1/2, 1/2, 1/2, 1/2⟩, none, none, URDFJointType.fixed⟩

/-- The mid-chain fixed `IKJoint` built from `fixedMidData`. -/
def fixedMidJoint : IKJoint := mkIKJoint (some fixedMidData)

/-- A three-joint chain whose middle joint is fixed. -/
def chain3 : List IKJoint := [rootJoint, fixedMidJoint, effJoint]

/-- A target well away from both chains. -/
def target5 : Vec3 := ⟨5, 0, 0⟩

/-- A configuration with tolerance 0.01 and `maxIterations` 1. -/
def cfg1 : IKConfig := ⟨1/100, 1, false⟩

/-- A root joint (no URDF joint, hence no declared limit) whose orientation
is the unit quaternion (0, 3/5, 0, 4/5): a rotation of `2·asin(3/5) > 0`
about the default axis (0, 1, 0). -/
def rootJointTurned : IKJoint :=
  { urdfJoint := none, position := ⟨0, 0, 0⟩, quaternion := ⟨0, 3/5, 0, 4/5⟩ }

/-- A revolute joint whose unit axis (3/5, 4/5, 0) has first nonzero
component x, with unit orientation quaternion (4/5, 0, 0, 3/5). -/
def jointSlantedAxis : IKJoint :=
  { urdfJoint := some ⟨⟨0, 0, 0⟩, ⟨0, 0, 0, 1⟩, some ⟨3/5, 4/5, 0⟩, some ⟨-1, 1⟩,
      URDFJointType.revolute⟩,
    position := ⟨0, 0, 0⟩, quaternion := ⟨4/5, 0, 0, 3/5⟩ }

/-- A revolute joint whose axis (0, 0, 0) has no nonzero component. -/
def jointDataDegenerate : URDFJointData :=
  ⟨⟨0, 0, 0⟩, ⟨0, 0, 0, 1⟩, some ⟨0, 0, 0⟩, none, URDFJointType.revolute⟩

/-- A revolute joint with axis x and a limit. -/
def jointDataRevolute : URDFJointData :=
  ⟨⟨0, 1, 0⟩, ⟨0, 0, 0, 1⟩, some ⟨1, 0, 0⟩, some ⟨0, 1⟩, URDFJointType.revolute⟩

/-- A link node with no children. -/
def leafLink : URDFNode := URDFNode.mk none []

/-- A terminal joint: its child link contains no further joint. -/
def jointTerminal : URDFNode := URDFNode.mk (some jointDataRevolute) [leafLink]

/-- A second terminal joint under the same link: the branch the traversal
silently ignores. -/
def jointIgnoredBranch : URDFNode := URDFNode.mk (some effData) [leafLink]

/-- A link with two child joints: a branching description. -/
def linkBranch : URDFNode := URDFNode.mk none [jointTerminal, jointIgnoredBranch]

/-- A joint with a degenerate axis whose child link branches. -/
def jointDegenerate : URDFNode := URDFNode.mk (some jointDataDegenerate) [linkBranch]

/-- A robot description that branches at the base and below, and contains a
joint with a degenerate axis. -/
def robotBranching : URDFNode :=
  URDFNode.mk none [jointDegenerate, URDFNode.mk (some jointDataRevolute) [leafLink]]

/-! Helper lemmas. -/

/-- Under `mStub` every computed distance is 1, whatever the state. -/
theorem calcDist_mStub (s : SolverState) : calcEndEffectorTargetDistance mStub s = 1 := rfl

/-- Under `mZeroSqrt` every computed distance is 0, whatever the state. -/
theorem calcDist_mZeroSqrt (s : SolverState) :
    calcEndEffectorTargetDistance mZeroSqrt s = 0 := rfl

/-- A joint step never touches the target. -/
theorem processIKJoint_targetPos (m : JsMath) (s : SolverState) (i : ℕ) :
    (processIKJoint m s i).targetPos = s.targetPos := by
  unfold processIKJoint
  cases h : s.ikJoints[i]? with
  | none => rfl
  | some j => by_cases hf : j.isFixed <;> simp [h, hf]

/-- The inner loop never touches the target. -/
theorem sweepDown_targetPos (m : JsMath) :
    ∀ (i : ℕ) (s : SolverState), (sweepDown m i s).targetPos = s.targetPos
  | 0, s => processIKJoint_targetPos m s 0
  | i + 1, s => by
    rw [sweepDown, sweepDown_targetPos m i, processIKJoint_targetPos]

/-- A sweep never touches the target. -/
theorem ccdSweep_targetPos (m : JsMath) (s : SolverState) :
    (ccdSweep m s).targetPos = s.targetPos := by
  unfold ccdSweep
  cases h : s.ikJoints.length with
  | zero => rfl
  | succ n => cases n with
    | zero => rfl
    | succ k => exact sweepDown_targetPos m k s

/-- The solver loop never touches the target. -/
theorem ccdLoop_targetPos (m : JsMath) (config : IKConfig) :
    ∀ (fuel iteration : ℕ) (s : SolverState),
      (ccdLoop m config fuel iteration s).1.targetPos = s.targetPos
  | 0, _, _ => rfl
  | fuel + 1, iteration, s => by
    rw [ccdLoop]
    split
    · rw [ccdLoop_targetPos m config fuel (iteration + 1) (ccdSweep m s),
        ccdSweep_targetPos]
    · rfl

/-! Claim theorems. -/

/-- C9: for every chain, configuration and target, running the solver never
mutates the target point's coordinates: every access the source makes to
`targetPos` first clones it (`targetPos.clone()`), so the target after a
solve equals its value before, for any number of iterations. -/
theorem claimC9_targetUnmutated (m : JsMath) (c : List IKJoint) (t : Vec3)
    (config : IKConfig) : (CCDIKSolver m c t config).1.targetPos = t := by
  unfold CCDIKSolver
  rw [ccdLoop_targetPos]

/-- C6: when the orchestrator's `solve` entry point runs with its chain
reference or its target reference absent, it returns with every observable
unchanged — no error, no joint mutation, no write-back. -/
theorem claimC6_missingOperandNoOp (m : JsMath) (config : IKConfig)
    (ikChain : Option (List IKJoint)) (target : Option Vec3)
    (h : ikChain = none ∨ target = none) :
    IKSolver.solve m config ikChain target = (ikChain, target) := by
  rcases h with h | h
  · subst h; cases target <;> rfl
  · subst h; cases ikChain <;> rfl

/-- Witness for C6 at a concrete input: chain absent, target present. -/
theorem claimC6_witness :
    IKSolver.solve mStub cfg1 none (some target5) = (none, some target5) :=
  claimC6_missingOperandNoOp mStub cfg1 none (some target5) (Or.inl rfl)

/-- C10: the orchestrator constructor fills omitted configuration fields
with the defaults tolerance = 0.01, maxIterations = 10 and write-back
disabled, while any supplied field overrides its default. -/
theorem claimC10_configDefaults (config : IKConfigInput) :
    ((config.tolerance = none → (IKSolver.mkConfig config).tolerance = 1 / 100) ∧
     (∀ v, config.tolerance = some v → (IKSolver.mkConfig config).tolerance = v)) ∧
    ((config.maxIterations = none → (IKSolver.mkConfig config).maxIterations = 10) ∧
     (∀ v, config.maxIterations = some v → (IKSolver.mkConfig config).maxIterations = v)) ∧
    ((config.updateURDFRobot = none → (IKSolver.mkConfig config).updateURDFRobot = false) ∧
     (∀ v, config.updateURDFRobot = some v → (IKSolver.mkConfig config).updateURDFRobot = v)) := by
  obtain ⟨t, n, b⟩ := config
  refine ⟨⟨?_, ?_⟩, ⟨?_, ?_⟩, ⟨?_, ?_⟩⟩ <;>
    first
      | (intro h; subst h; rfl)
      | (intro v h; subst h; rfl)

/-- Witness for C10 at a concrete input: tolerance and write-back omitted,
maxIterations supplied as 3. -/
theorem claimC10_witness :
    (IKSolver.mkConfig ⟨none, some 3, none⟩).tolerance = 1 / 100 ∧
    (IKSolver.mkConfig ⟨none, some 3, none⟩).maxIterations = 3 ∧
    (IKSolver.mkConfig ⟨none, some 3, none⟩).updateURDFRobot = false :=
  ⟨(claimC10_configDefaults ⟨none, some 3, none⟩).1.1 rfl,
   (claimC10_configDefaults ⟨none, some 3, none⟩).2.1.2 3 rfl,
   (claimC10_configDefaults ⟨none, some 3, none⟩).2.2.1 rfl⟩

/-- C8: for every angle and limit with lower ≤ upper, the clamping helper
returns the angle clamped into [lower, upper] together with a flag that is
true exactly when the angle lies outside [lower, upper]; and the limit
block overwrites a joint's orientation only when that flag is true. -/
theorem claimC8_clampBehaviour (a : ℚ) (lim : JointLimit) (m : JsMath) (j : IKJoint)
    (h : lim.lower ≤ lim.upper) :
    (clampIKJointRotationAngle a lim).1 = max lim.lower (min lim.upper a) ∧
    ((clampIKJointRotationAngle a lim).2 = true ↔ a < lim.lower ∨ lim.upper < a) ∧
    (applyLimitStep m j ≠ j →
      ∃ ang, getIKJointRotationAngle m j = some ang ∧
        (clampIKJointRotationAngle ang j.limit).2 = true) := by
  refine ⟨?_, ?_, ?_⟩
  · unfold clampIKJointRotationAngle
    split
    · rename_i h1
      rw [min_eq_right (by linarith), max_eq_left (by linarith)]
    · split
      · rename_i h1 h2
        rw [min_eq_left (by linarith), max_eq_right h]
      · rename_i h1 h2
        rw [min_eq_right (by linarith), max_eq_right (by linarith)]
  · unfold clampIKJointRotationAngle
    split
    · rename_i h1
      simp [h1]
    · split
      · rename_i h1 h2
        simp [h2]
      · rename_i h1 h2
        simp [h1, h2]
  · intro hne
    cases hg : getIKJointRotationAngle m j with
    | none =>
      exfalso
      apply hne
      simp [applyLimitStep, jsObjectTruthy, hg]
    | some ang =>
      refine ⟨ang, rfl, ?_⟩
      by_contra hflag
      rw [Bool.not_eq_true] at hflag
      apply hne
      simp [applyLimitStep, jsObjectTruthy, hg, hflag]

/-- Witness for C8 at a concrete input: angle 5, limit [0, 1]. -/
theorem claimC8_witness :
    (clampIKJointRotationAngle 5 ⟨0, 1⟩).1 = max 0 (min 1 5) ∧
    ((clampIKJointRotationAngle 5 ⟨0, 1⟩).2 = true ↔ (5 : ℚ) < 0 ∨ (1 : ℚ) < 5) :=
  ⟨(claimC8_clampBehaviour 5 ⟨0, 1⟩ mStub rootJoint (by norm_num)).1,
   (claimC8_clampBehaviour 5 ⟨0, 1⟩ mStub rootJoint (by norm_num)).2.1⟩

/-- C7: when the target position coincides with the end effector's current
world position — the initially computed effector-to-target distance is
zero — and the tolerance is positive, the `while` condition fails at once:
the solve performs zero sweeps, changes no joint orientation, and running
it again from the resulting state changes nothing either. -/
theorem claimC7_zeroDistanceNoOp (m : JsMath) (config : IKConfig) (c : List IKJoint)
    (t : Vec3) (htol : 0 < config.tolerance)
    (hdist : calcEndEffectorTargetDistance m ⟨c, t⟩ = 0) :
    (CCDIKSolver m c t config).1.ikJoints = c ∧ (CCDIKSolver m c t config).2 = 0 ∧
    (CCDIKSolver m ((CCDIKSolver m c t config).1.ikJoints) t config).1.ikJoints = c := by
  have hrun : CCDIKSolver m c t config = (⟨c, t⟩, 0) := by
    unfold CCDIKSolver
    have hfuel : config.maxIterations + 2 = (config.maxIterations + 1) + 1 := rfl
    rw [hfuel, ccdLoop]
    rw [if_neg]
    rintro ⟨hgt, -⟩
    rw [hdist] at hgt
    exact absurd hgt (by linarith)
  refine ⟨by rw [hrun], by rw [hrun], ?_⟩
  rw [hrun]
  rw [hrun]

/-- Witness for C7 at a concrete input: under `mZeroSqrt` the computed
distance is exactly 0 (as it is whenever the target sits at the effector's
world position and `sqrt 0 = 0`). -/
theorem claimC7_witness :
    (CCDIKSolver mZeroSqrt chain2 target5 cfg1).1.ikJoints = chain2 ∧
    (CCDIKSolver mZeroSqrt chain2 target5 cfg1).2 = 0 ∧
    (CCDIKSolver mZeroSqrt ((CCDIKSolver mZeroSqrt chain2 target5 cfg1).1.ikJoints)
      target5 cfg1).1.ikJoints = chain2 :=
  claimC7_zeroDistanceNoOp mZeroSqrt cfg1 chain2 target5 (by norm_num [cfg1])
    (calcDist_mZeroSqrt ⟨chain2, target5⟩)

/-- A joint step leaves every fixed joint's entry untouched: the processed
joint is skipped when it is fixed, and `List.set` at the processed index
leaves the other indices alone. -/
theorem processIKJoint_fixedEntry (m : JsMath) (s : SolverState) (k i : ℕ)
    (j : IKJoint) (hj : s.ikJoints[i]? = some j) (hfix : j.isFixed = true) :
    (processIKJoint m s k).ikJoints[i]? = some j := by
  unfold processIKJoint
  cases hk : s.ikJoints[k]? with
  | none => simpa using hj
  | some jk =>
    by_cases hkf : jk.isFixed
    · simp [hkf]
      exact hj
    · by_cases hik : k = i
      · subst hik
        rw [hj] at hk
        cases hk
        exact absurd hfix (by simp [hkf])
      · simp [hkf]
        rw [List.getElem?_set_ne hik]
        exact hj

/-- The inner loop leaves every fixed joint's entry untouched. -/
theorem sweepDown_fixedEntry (m : JsMath) :
    ∀ (n : ℕ) (s : SolverState) (i : ℕ) (j : IKJoint),
      s.ikJoints[i]? = some j → j.isFixed = true →
      (sweepDown m n s).ikJoints[i]? = some j
  | 0, s, i, j, hj, hfix => processIKJoint_fixedEntry m s 0 i j hj hfix
  | n + 1, s, i, j, hj, hfix => by
    rw [sweepDown]
    exact sweepDown_fixedEntry m n (processIKJoint m s (n + 1)) i j
      (processIKJoint_fixedEntry m s (n + 1) i j hj hfix) hfix

/-- A sweep leaves every fixed joint's entry untouched. -/
theorem ccdSweep_fixedEntry (m : JsMath) (s : SolverState) (i : ℕ) (j : IKJoint)
    (hj : s.ikJoints[i]? = some j) (hfix : j.isFixed = true) :
    (ccdSweep m s).ikJoints[i]? = some j := by
  unfold ccdSweep
  cases hl : s.ikJoints.length with
  | zero => exact hj
  | succ n => cases n with
    | zero => exact hj
    | succ k => exact sweepDown_fixedEntry m k s i j hj hfix

/-- The solver loop leaves every fixed joint's entry untouched. -/
theorem ccdLoop_fixedEntry (m : JsMath) (config : IKConfig) :
    ∀ (fuel iteration : ℕ) (s : SolverState) (i : ℕ) (j : IKJoint),
      s.ikJoints[i]? = some j → j.isFixed = true →
      (ccdLoop m config fuel iteration s).1.ikJoints[i]? = some j
  | 0, _, _, _, _, hj, _ => hj
  | fuel + 1, iteration, s, i, j, hj, hfix => by
    rw [ccdLoop]
    split
    · exact ccdLoop_fixedEntry m config fuel (iteration + 1) (ccdSweep m s) i j
        (ccdSweep_fixedEntry m s i j hj hfix) hfix
    · exact hj

/-- C5: a solve never mutates a fixed joint: for every chain, target and
configuration, the entry of every fixed joint — its whole record, hence in
particular its local orientation — is unchanged (bit-identical in the
embedding: equal as values) after `CCDIKSolver` runs. -/
theorem claimC5_fixedJointUnchanged (m : JsMath) (config : IKConfig)
    (c : List IKJoint) (t : Vec3) (i : ℕ) (j : IKJoint)
    (hj : (c)[i]? = some j) (hfix : j.isFixed = true) :
    (CCDIKSolver m c t config).1.ikJoints[i]? = some j ∧
    ((CCDIKSolver m c t config).1.ikJoints[i]?).map IKJoint.quaternion =
      some j.quaternion := by
  have h := ccdLoop_fixedEntry m config (config.maxIterations + 2) 0 ⟨c, t⟩ i j hj hfix
  constructor
  · unfold CCDIKSolver
    exact h
  · unfold CCDIKSolver
    rw [h]
    rfl

/-- Witness for C5 at a concrete input: the fixed mid-chain joint of
`chain3` is bit-identical after a full solve toward `target5`. -/
theorem claimC5_witness :
    (CCDIKSolver mStub chain3 target5 cfg1).1.ikJoints[1]? = some fixedMidJoint ∧
    ((CCDIKSolver mStub chain3 target5 cfg1).1.ikJoints[1]?).map IKJoint.quaternion =
      some fixedMidJoint.quaternion :=
  claimC5_fixedJointUnchanged mStub cfg1 chain3 target5 1 fixedMidJoint rfl rfl

/-- When the computed distance stays above the tolerance at every check,
the `while` loop runs until its iteration guard fails.  The guard is
`iteration <= config.maxIterations` with `iteration` starting at 0 and
incremented once per sweep, so the loop performs `maxIterations + 1`
sweeps and the counter ends at `maxIterations + 1`. -/
theorem ccdLoop_exhaustsIterations (m : JsMath) (config : IKConfig) :
    ∀ (fuel iteration : ℕ) (s : SolverState),
      config.maxIterations + 2 ≤ fuel + iteration →
      iteration ≤ config.maxIterations + 1 →
      (∀ k, iteration + k ≤ config.maxIterations →
        config.tolerance < calcEndEffectorTargetDistance m (sweepN m k s)) →
      ccdLoop m config fuel iteration s =
        (sweepN m (config.maxIterations + 1 - iteration) s,
         config.maxIterations + 1) := by
  intro fuel
  induction fuel with
  | zero => intro it s h1 h2 hd; omega
  | succ fuel ih =>
    intro it s h1 h2 hd
    rw [ccdLoop]
    by_cases hit : it ≤ config.maxIterations
    · rw [if_pos ⟨hd 0 (by omega), hit⟩]
      rw [ih (it + 1) (ccdSweep m s) (by omega) (by omega)
        (fun k hk => hd (k + 1) (by omega))]
      have hidx : config.maxIterations + 1 - it =
          (config.maxIterations + 1 - (it + 1)) + 1 := by omega
      rw [hidx]
      rfl
    · rw [if_neg (fun hc => hit hc.2)]
      have hit1 : it = config.maxIterations + 1 := by omega
      rw [hit1]
      simp [sweepN]

/-- C4 (amended): for every chain and every configuration with
`maxIterations > 0`, when the computed effector-to-target distance stays
above the tolerance at every check — as when the target is farther than
the chain's total reach — the solver raises no error, halts, and performs
exactly `maxIterations + 1` sweeps of the chain (the loop guard is
`iteration <= maxIterations` with `iteration` counting from 0). -/
theorem claimC4_amended (m : JsMath) (config : IKConfig) (c : List IKJoint) (t : Vec3)
    (hpos : 0 < config.maxIterations)
    (hd : ∀ k, k ≤ config.maxIterations →
      config.tolerance < calcEndEffectorTargetDistance m (sweepN m k ⟨c, t⟩)) :
    (CCDIKSolver m c t config).2 = config.maxIterations + 1 ∧
    (CCDIKSolver m c t config).1 = sweepN m (config.maxIterations + 1) ⟨c, t⟩ := by
  unfold CCDIKSolver
  rw [ccdLoop_exhaustsIterations m config (config.maxIterations + 2) 0 ⟨c, t⟩
    (by omega) (by omega) (fun k hk => hd k (by omega))]
  exact ⟨rfl, rfl⟩

/-- Witness for C4 (amended) at a concrete input: under `mStub` every
computed distance is 1 > 0.01, and the run with `maxIterations = 1`
performs 2 sweeps. -/
theorem claimC4_witness :
    (CCDIKSolver mStub chain2 target5 cfg1).2 = cfg1.maxIterations + 1 ∧
    (CCDIKSolver mStub chain2 target5 cfg1).1 =
      sweepN mStub (cfg1.maxIterations + 1) ⟨chain2, target5⟩ :=
  claimC4_amended mStub cfg1 chain2 target5 (by norm_num [cfg1])
    (fun k _ => by rw [calcDist_mStub]; norm_num [cfg1])

/-- Counterexample to C4 as stated: a run with `maxIterations = 1` in
which every distance check exceeds the tolerance performs 2 sweeps, not
`maxIterations = 1` sweeps. -/
theorem claimC4_counterexample :
    0 < cfg1.maxIterations ∧
    cfg1.tolerance < calcEndEffectorTargetDistance mStub (sweepN mStub 0 ⟨chain2, target5⟩) ∧
    cfg1.tolerance < calcEndEffectorTargetDistance mStub (sweepN mStub 1 ⟨chain2, target5⟩) ∧
    cfg1.tolerance < calcEndEffectorTargetDistance mStub (sweepN mStub 2 ⟨chain2, target5⟩) ∧
    (CCDIKSolver mStub chain2 target5 cfg1).2 = 2 ∧
    cfg1.maxIterations = 1 := by
  have h := ccdLoop_exhaustsIterations mStub cfg1 (cfg1.maxIterations + 2) 0
    ⟨chain2, target5⟩ (by omega) (by omega)
    (fun k _ => by rw [calcDist_mStub]; norm_num [cfg1])
  refine ⟨by norm_num [cfg1], ?_, ?_, ?_, ?_, rfl⟩
  · rw [calcDist_mStub]; norm_num [cfg1]
  · rw [calcDist_mStub]; norm_num [cfg1]
  · rw [calcDist_mStub]; norm_num [cfg1]
  · show (ccdLoop mStub cfg1 (cfg1.maxIterations + 2) 0 ⟨chain2, target5⟩).2 = 2
    rw [h]
    rfl

/-- C1: the limit block of the solver clamps the root joint even though it
declares no limit.  For the root joint `rootJointTurned` — no URDF joint,
so no declared limit, `limit` getter defaulting to `{lower: 0, upper: 0}`
— the guard `if (ikJoint.limit)` is satisfied (an object is always
truthy), the derived angle `2·asin(3/5)` is positive, and the block
overwrites the orientation with the axis-angle rotation at the clamped
angle 0, the identity quaternion.  (`mIdTrig` agrees with the real
primitives at every evaluated point up to the sign-preserving `asin`:
`sin 0 = 0`, `cos 0 = 1`, and `asin (3/5) > 0` exactly as the real
inverse sine.) -/
theorem claimC1_rootJointClamped :
    IKJoint.isRootJoint rootJointTurned = true ∧
    rootJointTurned.urdfJoint = none ∧
    IKJoint.limit rootJointTurned = ⟨0, 0⟩ ∧
    Quat.lengthSq rootJointTurned.quaternion = 1 ∧
    (applyLimitStep mIdTrig rootJointTurned).quaternion = ⟨0, 0, 0, 1⟩ ∧
    applyLimitStep mIdTrig rootJointTurned ≠ rootJointTurned := by
  have heval : applyLimitStep mIdTrig rootJointTurned =
      { rootJointTurned with quaternion := ⟨0, 0, 0, 1⟩ } := by
    norm_num [applyLimitStep, jsObjectTruthy, getIKJointRotationAngle, axisNameOf,
      asinArgument, quatComp, vecComp, IKJoint.axis, IKJoint.limit, rootJointTurned,
      mIdTrig, clampIKJointRotationAngle, Quat.setFromAxisAngle, DEFAULT_AXIS]
  refine ⟨rfl, rfl, rfl, by norm_num [Quat.lengthSq, rootJointTurned], by rw [heval], ?_⟩
  intro hcontra
  have hq := congrArg IKJoint.quaternion hcontra
  rw [heval] at hq
  simp only [rootJointTurned, Quat.mk.injEq] at hq
  norm_num at hq

/-- C2: the solver does not clamp the inverse-sine argument.  For the
joint `jointSlantedAxis` — unit axis (3/5, 4/5, 0) whose first nonzero
component is x, unit orientation quaternion (4/5, 0, 0, 3/5) — the ratio
`quaternion.x / axis.x` handed to `Math.asin` is 4/3, outside [−1, 1]
(where the real `Math.asin` returns `NaN`), and the computed angle
differs from the spec-mandated clamped computation. -/
theorem claimC2_asinArgumentUnclamped :
    axisNameOf (IKJoint.axis jointSlantedAxis) = some AxisName.x ∧
    Vec3.lengthSq (IKJoint.axis jointSlantedAxis) = 1 ∧
    Quat.lengthSq jointSlantedAxis.quaternion = 1 ∧
    asinArgument jointSlantedAxis AxisName.x = 4 / 3 ∧
    ¬ asinArgument jointSlantedAxis AxisName.x ≤ 1 ∧
    getIKJointRotationAngle mIdTrig jointSlantedAxis ≠
      getIKJointRotationAngleSpecClamped mIdTrig jointSlantedAxis := by
  refine ⟨?_, ?_, ?_, ?_, ?_, ?_⟩
  · norm_num [axisNameOf, IKJoint.axis, jointSlantedAxis]
  · norm_num [Vec3.lengthSq, Vec3.dot, IKJoint.axis, jointSlantedAxis]
  · norm_num [Quat.lengthSq, jointSlantedAxis]
  · norm_num [asinArgument, quatComp, vecComp, IKJoint.axis, jointSlantedAxis]
  · norm_num [asinArgument, quatComp, vecComp, IKJoint.axis, jointSlantedAxis]
  · norm_num [getIKJointRotationAngle, getIKJointRotationAngleSpecClamped,
      axisNameOf, asinArgument, quatComp, vecComp, IKJoint.axis, jointSlantedAxis,
      mIdTrig]

/-- C3 (counterexample to the claim as stated): a description that
branches both at the base and below a link, and whose first chained joint
has a degenerate axis with no nonzero component, builds without any error:
the traversal silently follows the first viable branch and returns a chain
with a well-defined end effector — no `MalformedChain` is raised. -/
theorem claimC3_counterexample :
    linkBranch.children.length = 2 ∧
    (linkBranch.children.filter URDFNode.isURDFJoint).length = 2 ∧
    robotBranching.children.length = 2 ∧
    axisNameOf (IKJoint.axis (mkIKJoint (some jointDataDegenerate))) = none ∧
    createFromURDF robotBranching =
      Except.ok ([mkIKJoint none, mkIKJoint (some jointDataDegenerate),
        mkIKJoint (some jointDataRevolute)], mkIKJoint (some jointDataRevolute)) := by
  refine ⟨rfl, rfl, rfl, ?_, rfl⟩
  norm_num [axisNameOf, IKJoint.axis, mkIKJoint, jointDataDegenerate]

/-- The next-joint lookup can only fail with a `TypeError`. -/
theorem nextURDFJoint_ne_malformed (p : URDFNode) :
    nextURDFJoint p ≠ Except.error BuildError.malformedChain := by
  unfold nextURDFJoint
  cases p.children with
  | nil => simp
  | cons c rest => simp

/-- The base-joint search can only fail with a `TypeError`. -/
theorem baseURDFJoint_ne_malformed :
    ∀ l : List URDFNode, baseURDFJoint l ≠ Except.error BuildError.malformedChain := by
  intro l
  induction l with
  | nil => simp [baseURDFJoint]
  | cons c rest ih =>
    unfold baseURDFJoint
    by_cases hc : c.isURDFJoint
    · rw [if_pos hc]
      cases hn : nextURDFJoint c with
      | error e =>
        cases e with
        | typeError => simp
        | malformedChain => exact absurd hn (nextURDFJoint_ne_malformed c)
      | ok o => cases o with
        | none => exact ih
        | some b => simp
    · rw [if_neg hc]
      exact ih

/-- The chain traversal can only fail with a `TypeError`. -/
theorem traverseURDFJoints_ne_malformed :
    ∀ (fuel : ℕ) (u : URDFNode),
      traverseURDFJoints fuel u ≠ Except.error BuildError.malformedChain
  | 0, _ => by simp [traverseURDFJoints]
  | fuel + 1, u => by
    rw [traverseURDFJoints]
    cases hn : nextURDFJoint u with
    | error e =>
      cases e with
      | typeError => simp
      | malformedChain => exact absurd hn (nextURDFJoint_ne_malformed u)
    | ok o => cases o with
      | none => simp
      | some nxt =>
        cases ht : traverseURDFJoints fuel nxt with
        | error e =>
          cases e with
          | typeError => simp [ht]
          | malformedChain => exact absurd ht (traverseURDFJoints_ne_malformed fuel nxt)
        | ok r =>
          obtain ⟨rest, eff⟩ := r
          simp [ht]

/-- C3 (amended): building a chain never raises a `MalformedChain` error,
whatever the description: branching is resolved silently by following the
first viable branch, a degenerate axis is accepted, and the only error the
build can surface is the `TypeError` of an undefined property access. -/
theorem claimC3_amended (robot : URDFNode) :
    createFromURDF robot ≠ Except.error BuildError.malformedChain := by
  unfold createFromURDF
  cases hb : baseURDFJoint robot.children with
  | error e =>
    cases e with
    | typeError => simp
    | malformedChain => exact absurd hb (baseURDFJoint_ne_malformed robot.children)
  | ok o => cases o with
    | none => simp
    | some base =>
      cases ht : traverseURDFJoints base.sizeT base with
      | error e =>
        cases e with
        | typeError => simp [ht]
        | malformedChain => exact absurd ht (traverseURDFJoints_ne_malformed base.sizeT base)
      | ok r =>
        obtain ⟨js, eff⟩ := r
        simp [ht]

end IK
